import Mathlib

/-!
Shallow embedding of scripts/direct-linear-cleanup.py: a bulk
state-transition workflow over a remote GraphQL issue tracker.
Parsed JSON responses are modelled by an inductive `Json`; Python
dictionary indexing, `in` membership tests, truthiness and the
exceptions they can raise are modelled explicitly.  A run interacts
with the network through an environment `Env` assigning a parsed
response (or a transport exception) to the n-th HTTP POST of the run.
Each embedded function returns, besides its Python result (wrapped in
`Except` since any step may raise), the updated call counter and the
list of network calls it issued, so that claims about calls never
being made can be stated.
-/

namespace LinearCleanup

/-- A parsed JSON value, as returned by `response.json()`. -/
inductive Json where
  | null
  | bool (b : Bool)
  | num (n : Int)
  | str (s : String)
  | arr (elems : List Json)
  | obj (fields : List (String × Json))

/-- Python exceptions the script can raise: `KeyError` from indexing a
dict with a missing key, `TypeError` from indexing or iterating a
non-dict/non-list value, a transport/parse exception from
`requests.post` or `.json()`, and a plain `Exception(msg)` from a
`raise` statement. -/
inductive PyExn where
  | keyError (k : String)
  | typeError
  | transport
  | exn (msg : String)
deriving DecidableEq

/-- Python `d[k]`: returns the value for key `k` of a JSON object,
raises `KeyError` when the key is absent, raises `TypeError` when the
value is not a dict (in particular when it is `null`, as in
`issue["title"]` with `issue = None`). -/
def Json.index : Json → String → Except PyExn Json
  | .obj fields, k =>
      match fields.find? (fun p => p.1 == k) with
      | some p => .ok p.2
      | none => .error (.keyError k)
  | _, _ => .error .typeError

/-- Python truthiness of a JSON value (`if issue_id:` / `if data[...]["success"]:`). -/
def Json.truthy : Json → Bool
  | .null => false
  | .bool b => b
  | .num n => n != 0
  | .str s => s != ""
  | .arr elems => !elems.isEmpty
  | .obj fields => !fields.isEmpty

/-- Python `j == s` for a string literal `s`: true exactly when `j` is
that string (comparisons across types are `False`, never raise). -/
def Json.eqStr : Json → String → Bool
  | .str s, t => s == t
  | _, _ => false

/-- Test whether `needle` is a prefix of `hay` (character lists). -/
def charsPre : List Char → List Char → Bool
  | [], _ => true
  | _ :: _, [] => false
  | a :: as, b :: bs => a == b && charsPre as bs

/-- Test whether `needle` occurs as a contiguous substring of `hay`. -/
def charsSub (needle : List Char) : List Char → Bool
  | [] => charsPre needle []
  | b :: bs => charsPre needle (b :: bs) || charsSub needle bs

/-- Python `needle in data` for a string `needle`: key membership for a
dict, element membership for a list, substring test for a string, and a
`TypeError` otherwise. -/
def pyContains (needle : String) : Json → Except PyExn Bool
  | .obj fields => .ok (fields.any fun p => p.1 == needle)
  | .arr elems => .ok (elems.any fun j => j.eqStr needle)
  | .str s => .ok (charsSub needle.toList s.toList)
  | _ => .error .typeError

/-- Python `for x in j`: iterating a list yields its elements, a dict its
keys, a string its one-character substrings; anything else raises
`TypeError`. -/
def Json.iter : Json → Except PyExn (List Json)
  | .arr elems => .ok elems
  | .obj fields => .ok (fields.map fun p => .str p.1)
  | .str s => .ok (s.toList.map fun c => .str (String.mk [c]))
  | _ => .error .typeError

/-- One network call issued by the script, with the arguments that vary. -/
inductive Call where
  | stateQuery
  | issueQuery (identifier : String)
  | updateMutation (issueId stateId : Json)
  | commentMutation (issueId : Json) (body : String)

/-- Result of one `requests.post(...)` followed by `.json()`: either a
parsed JSON value or a raised transport/parse exception. -/
abbrev NetResult := Except PyExn Json

/-- The remote side of a run: the response to the n-th HTTP POST. -/
abbrev Env := Nat → NetResult

/-- Configured ticket list of phase 1 (`WORKER_TRACE_TICKETS`, lines 21-25). -/
def WORKER_TRACE_TICKETS : List String :=
  ["1M-610", "1M-611", "1M-612", "1M-613", "1M-614",
   "1M-615", "1M-616", "1M-617", "1M-618", "1M-619",
   "1M-620", "1M-488", "1M-466", "1M-467"]

/-- Configured ticket list of phase 2 (`TRACK_TICKETS`, lines 27-29). -/
def TRACK_TICKETS : List String :=
  ["1M-573", "1M-574", "1M-575", "1M-576", "1M-577", "1M-578"]

/-- Audit comment used for phase 1 (line 164). -/
def PHASE1_COMMENT : String :=
  "Archived as test pollution - cleanup operation 2025-12-04"

/-- Audit comment used for phase 2 (line 185). -/
def PHASE2_COMMENT : String :=
  "Closed as duplicate tracking ticket - cleanup operation 2025-12-04"

/-- The `team.key` lookup performed on each workflow-state node by the
scan of `get_canceled_state_id` (line 51): `state["team"]["key"]`. -/
def teamKey (st : Json) : Except PyExn Json := do
  let team ← st.index "team"
  team.index "key"

/-- The node-list extraction of line 50:
`data["data"]["workflowStates"]["nodes"]`. -/
def nodesOf (data : Json) : Except PyExn Json := do
  let d ← data.index "data"
  let ws ← d.index "workflowStates"
  ws.index "nodes"

/-- The loop body of `get_canceled_state_id` (lines 50-55): scan the
returned workflow-state nodes in order, return the `id` of the first
node whose `team.key` equals `"1M"`, and raise
`Exception("Could not find Canceled state for team 1M")` when the scan
finds none. -/
def findCanceled : List Json → Except PyExn Json
  | [] => .error (.exn "Could not find Canceled state for team 1M")
  | state :: rest => do
      let key ← teamKey state
      if key.eqStr "1M" then state.index "id" else findCanceled rest

/-- Function `get_canceled_state_id` (lines 31-55): POST the workflow-state query
(server-side filter: name eq "Canceled", across all teams), then
client-side scan `data["data"]["workflowStates"]["nodes"]` for the team
"1M".  There is no errors-array check here: a malformed response raises
and is fatal. -/
def get_canceled_state_id (env : Env) (n : Nat) :
    Except PyExn Json × Nat × List Call :=
  let body : Except PyExn Json :=
    match env n with
    | .error e => .error e
    | .ok data => do
        let nodes ← nodesOf data
        let xs ← nodes.iter
        findCanceled xs
  (body, n + 1, [Call.stateQuery])

/-- The field accesses of lines 82-84: read `data["data"]["issue"]`,
access `issue["title"]` and `issue["state"]["name"]` for the progress
print, then yield `issue["id"]`.  Any access raises when the shape is
wrong (in particular when `issue` is `null`). -/
def issueFields (data : Json) : Except PyExn Json := do
  let d ← data.index "data"
  let issue ← d.index "issue"
  let _ ← issue.index "title"
  let st ← issue.index "state"
  let _ ← st.index "name"
  issue.index "id"

/-- Function `get_issue_id` (lines 57-84): POST the issue query for
`ticket_identifier`; if the parsed response contains an `"errors"` key,
print and return `None`; otherwise read the issue fields and return
`issue["id"]` (a non-`None` value, modelled by `some`). -/
def get_issue_id (env : Env) (n : Nat) (ticket_identifier : String) :
    Except PyExn (Option Json) × Nat × List Call :=
  let body : Except PyExn (Option Json) :=
    match env n with
    | .error e => .error e
    | .ok data =>
      match pyContains "errors" data with
      | .error e => .error e
      | .ok true => .ok none
      | .ok false => (issueFields data).map some
  (body, n + 1, [Call.issueQuery ticket_identifier])

/-- The truthiness test of line 114:
`data["data"]["issueUpdate"]["success"]`, any step of which may raise. -/
def step1Success (data : Json) : Except PyExn Json := do
  let d ← data.index "data"
  let iu ← d.index "issueUpdate"
  iu.index "success"

/-- The accesses of lines 115-116 performed for the success print:
`data["data"]["issueUpdate"]["issue"]["identifier"]` and
`...["issue"]["state"]["name"]`. -/
def step1Print (data : Json) : Except PyExn Json := do
  let d ← data.index "data"
  let iu ← d.index "issueUpdate"
  let issue ← iu.index "issue"
  let _ ← issue.index "identifier"
  let st ← issue.index "state"
  st.index "name"

/-- The access of line 135: `comment_data["data"]["commentCreate"]["success"]`,
which raises when the comment response is malformed (e.g. `data` null). -/
def commentSuccess (cdata : Json) : Except PyExn Json := do
  let d ← cdata.index "data"
  let cc ← d.index "commentCreate"
  cc.index "success"

/-- Function `update_issue_state` (lines 86-140): POST the state mutation; if the
response has an `"errors"` key return `False`; if
`data["data"]["issueUpdate"]["success"]` is truthy, POST the comment
mutation, test (only for the print) the comment success flag, and
return `True`; otherwise return `False`.  The comment POST happens only
on the truthy branch; there is no try/except, so a transport exception
or a malformed response at any point propagates. -/
def update_issue_state (env : Env) (n : Nat) (issue_id state_id : Json)
    (comment_text : String) : Except PyExn Bool × Nat × List Call :=
  match env n with
  | .error e => (.error e, n + 1, [Call.updateMutation issue_id state_id])
  | .ok data =>
    match pyContains "errors" data with
    | .error e => (.error e, n + 1, [Call.updateMutation issue_id state_id])
    | .ok true => (.ok false, n + 1, [Call.updateMutation issue_id state_id])
    | .ok false =>
      match step1Success data with
      | .error e => (.error e, n + 1, [Call.updateMutation issue_id state_id])
      | .ok succ =>
        if succ.truthy then
          match step1Print data with
          | .error e => (.error e, n + 1, [Call.updateMutation issue_id state_id])
          | .ok _ =>
            match env (n + 1) with
            | .error e => (.error e, n + 2,
                [Call.updateMutation issue_id state_id,
                 Call.commentMutation issue_id comment_text])
            | .ok cdata =>
              match commentSuccess cdata with
              | .error e => (.error e, n + 2,
                  [Call.updateMutation issue_id state_id,
                   Call.commentMutation issue_id comment_text])
              | .ok _ => (.ok true, n + 2,
                  [Call.updateMutation issue_id state_id,
                   Call.commentMutation issue_id comment_text])
        else (.ok false, n + 1, [Call.updateMutation issue_id state_id])

/-- The in-memory batch result of `main` (lines 150-152):
`success_count`, `failed_count`, `failed_tickets`. -/
structure Summary where
  success_count : Nat
  failed_count : Nat
  failed_tickets : List String
deriving DecidableEq

/-- One iteration of the per-ticket loop of `main` (lines 159-173 and
180-194): resolve the ticket; on a truthy issue id run the transition
and count success or failure, otherwise count a failure; append failed
tickets to the failed list.  The `time.sleep(0.5)` pacing has no
observable effect in this model. -/
def process_ticket (env : Env) (n : Nat) (canceled_state_id : Json)
    (comment : String) (s : Summary) (ticket : String) :
    Except PyExn Summary × Nat × List Call :=
  let g := get_issue_id env n ticket
  match g.1 with
  | .error e => (.error e, g.2.1, g.2.2)
  | .ok issue_id =>
    match issue_id with
    | some j =>
      if j.truthy then
        let u := update_issue_state env g.2.1 j canceled_state_id comment
        match u.1 with
        | .error e => (.error e, u.2.1, g.2.2 ++ u.2.2)
        | .ok true =>
            (.ok { s with success_count := s.success_count + 1 },
             u.2.1, g.2.2 ++ u.2.2)
        | .ok false =>
            (.ok { s with failed_count := s.failed_count + 1,
                          failed_tickets := s.failed_tickets ++ [ticket] },
             u.2.1, g.2.2 ++ u.2.2)
      else
        (.ok { s with failed_count := s.failed_count + 1,
                      failed_tickets := s.failed_tickets ++ [ticket] },
         g.2.1, g.2.2)
    | none =>
        (.ok { s with failed_count := s.failed_count + 1,
                      failed_tickets := s.failed_tickets ++ [ticket] },
         g.2.1, g.2.2)

/-- One phase of `main`: the tickets of one configured list processed in
order with one shared audit comment. -/
def run_phase (env : Env) (canceled_state_id : Json) (comment : String) :
    Nat → Summary → List String → Except PyExn Summary × Nat × List Call
  | n, s, [] => (.ok s, n, [])
  | n, s, ticket :: rest =>
    let step := process_ticket env n canceled_state_id comment s ticket
    match step.1 with
    | .error e => (.error e, step.2.1, step.2.2)
    | .ok s2 =>
      let next := run_phase env canceled_state_id comment step.2.1 s2 rest
      (next.1, next.2.1, step.2.2 ++ next.2.2)

/-- Function `main` (lines 142-208): resolve the Canceled state once (any failure
there propagates before the counters even exist), then run phase 1 over
`WORKER_TRACE_TICKETS` and phase 2 over `TRACK_TICKETS`, accumulating
the summary from zero counts. -/
def main (env : Env) : Except PyExn Summary × Nat × List Call :=
  let g := get_canceled_state_id env 0
  match g.1 with
  | .error e => (.error e, g.2.1, g.2.2)
  | .ok canceled_state_id =>
    let p1 := run_phase env canceled_state_id PHASE1_COMMENT g.2.1 ⟨0, 0, []⟩
      WORKER_TRACE_TICKETS
    match p1.1 with
    | .error e => (.error e, p1.2.1, g.2.2 ++ p1.2.2)
    | .ok s1 =>
      let p2 := run_phase env canceled_state_id PHASE2_COMMENT p1.2.1 s1
        TRACK_TICKETS
      (p2.1, p2.2.1, g.2.2 ++ p1.2.2 ++ p2.2.2)

/-- The ticket identifiers of the issue-resolution calls in a trace, in
order. -/
def issueQueriesOf (cs : List Call) : List String :=
  cs.filterMap fun c => match c with | Call.issueQuery t => some t | _ => none

/-- Whether a call is a state-update mutation. -/
def isUpdateCall : Call → Bool
  | Call.updateMutation _ _ => true
  | _ => false

/-- Whether a call is a comment-creation mutation. -/
def isCommentCall : Call → Bool
  | Call.commentMutation _ _ => true
  | _ => false

/-! ### Basic reduction lemmas -/

theorem except_bind_ok {α β : Type} (a : α) (f : α → Except PyExn β) :
    (Except.ok a >>= f) = f a := rfl

theorem except_bind_err {α β : Type} (e : PyExn) (f : α → Except PyExn β) :
    ((Except.error e : Except PyExn α) >>= f) = Except.error e := rfl

theorem except_map_ok {α β : Type} (f : α → β) (a : α) :
    (Except.ok a : Except PyExn α).map f = Except.ok (f a) := rfl

theorem except_map_err {α β : Type} (f : α → β) (e : PyExn) :
    (Except.error e : Except PyExn α).map f = (Except.error e : Except PyExn β) := rfl

theorem get_issue_id_shape (env : Env) (n : Nat) (t : String) :
    (get_issue_id env n t).2 = (n + 1, [Call.issueQuery t]) := rfl

theorem get_canceled_state_id_shape (env : Env) (n : Nat) :
    (get_canceled_state_id env n).2 = (n + 1, [Call.stateQuery]) := rfl

/-- When the resolution response is parsed and has an `"errors"` key,
`get_issue_id` returns `None` without raising. -/
theorem get_issue_id_api_error (env : Env) (n : Nat) (t : String) (data : Json)
    (hresp : env n = .ok data) (herr : pyContains "errors" data = .ok true) :
    (get_issue_id env n t).1 = .ok none := by
  simp only [get_issue_id, hresp, herr]

/-- A ticket whose resolution returned `None` is recorded as a failure
and costs exactly one network call. -/
theorem process_ticket_resolver_none (env : Env) (n : Nat) (stj : Json)
    (c : String) (s : Summary) (t : String)
    (h : (get_issue_id env n t).1 = .ok none) :
    process_ticket env n stj c s t =
      (.ok ⟨s.success_count, s.failed_count + 1, s.failed_tickets ++ [t]⟩,
       n + 1, [Call.issueQuery t]) := by
  have hsh : get_issue_id env n t = (.ok none, n + 1, [Call.issueQuery t]) := by
    have h0 : get_issue_id env n t =
        ((get_issue_id env n t).1, n + 1, [Call.issueQuery t]) := rfl
    rw [h0, h]
  unfold process_ticket
  rw [hsh]

/-- C5: for every ticket reference, if the resolution response reports
errors (an `errors` array in the parsed response), `get_issue_id`
returns `None` without raising, and the caller records a per-ticket
failure (failed count incremented, ticket appended to the failed list)
rather than aborting the run. -/
theorem resolver_api_error_returns_null (env : Env) (n : Nat) (t : String)
    (data : Json) (hresp : env n = .ok data)
    (herr : pyContains "errors" data = .ok true) :
    (get_issue_id env n t).1 = .ok none ∧
    ∀ (stj : Json) (c : String) (s : Summary),
      (process_ticket env n stj c s t).1 =
        .ok ⟨s.success_count, s.failed_count + 1, s.failed_tickets ++ [t]⟩ := by
  have h1 := get_issue_id_api_error env n t data hresp herr
  refine ⟨h1, fun stj c s => ?_⟩
  rw [process_ticket_resolver_none env n stj c s t h1]

/-- An environment whose every response is a parsed body carrying an
`errors` array. -/
def envApiErr : Env := fun _ => .ok (Json.obj [("errors", Json.arr [])])

theorem resolver_api_error_returns_null_witness :
    (get_issue_id envApiErr 0 "1M-488").1 = .ok none ∧
    ∀ (stj : Json) (c : String) (s : Summary),
      (process_ticket envApiErr 0 stj c s "1M-488").1 =
        .ok ⟨s.success_count, s.failed_count + 1, s.failed_tickets ++ ["1M-488"]⟩ :=
  resolver_api_error_returns_null envApiErr 0 "1M-488"
    (Json.obj [("errors", Json.arr [])]) rfl rfl

/-- C6: a ticket for which the resolver returns `None` is appended to
the failed list with the failure count incremented, and the transition
executor is never invoked for it: the only network call for that ticket
is its resolution query, so no state-update mutation is issued. -/
theorem resolver_null_never_transitions (env : Env) (n : Nat) (stj : Json)
    (c : String) (s : Summary) (t : String)
    (h : (get_issue_id env n t).1 = .ok none) :
    (process_ticket env n stj c s t).1 =
      .ok ⟨s.success_count, s.failed_count + 1, s.failed_tickets ++ [t]⟩ ∧
    (process_ticket env n stj c s t).2.2 = [Call.issueQuery t] ∧
    (process_ticket env n stj c s t).2.2.countP isUpdateCall = 0 := by
  rw [process_ticket_resolver_none env n stj c s t h]
  exact ⟨rfl, rfl, rfl⟩

theorem resolver_null_never_transitions_witness :
    (process_ticket envApiErr 0 (Json.str "sid") PHASE2_COMMENT
        ⟨0, 0, []⟩ "1M-573").1 = .ok ⟨0, 1, ["1M-573"]⟩ ∧
    (process_ticket envApiErr 0 (Json.str "sid") PHASE2_COMMENT
        ⟨0, 0, []⟩ "1M-573").2.2 = [Call.issueQuery "1M-573"] ∧
    (process_ticket envApiErr 0 (Json.str "sid") PHASE2_COMMENT
        ⟨0, 0, []⟩ "1M-573").2.2.countP isUpdateCall = 0 :=
  resolver_null_never_transitions envApiErr 0 (Json.str "sid") PHASE2_COMMENT
    ⟨0, 0, []⟩ "1M-573" (by rfl)

/-- C9: `get_issue_id` returns `None` only when the parsed response has
an `errors` key; on a well-formed response without `errors` whose
`issue` field is `null`, it raises a `TypeError` (subscripting `None`)
instead of returning `None`. -/
theorem null_return_requires_errors_key (env : Env) (n : Nat) (t : String) :
    ((get_issue_id env n t).1 = .ok none →
      ∃ data, env n = .ok data ∧ pyContains "errors" data = .ok true) ∧
    (∀ data d, env n = .ok data → pyContains "errors" data = .ok false →
      data.index "data" = .ok d → d.index "issue" = .ok Json.null →
      (get_issue_id env n t).1 = .error PyExn.typeError) := by
  constructor
  · intro h
    simp only [get_issue_id] at h
    split at h
    next e heq => simp at h
    next data hresp =>
      split at h
      next e heq => simp at h
      next herr => exact ⟨data, hresp, herr⟩
      next herr =>
        cases hf : issueFields data with
        | error e => rw [hf] at h; simp [except_map_err] at h
        | ok v => rw [hf] at h; simp [except_map_ok] at h
  · intro data d hresp hno hdata hissue
    have hf : issueFields data = .error PyExn.typeError := by
      simp only [issueFields, hdata, except_bind_ok, hissue]
      rfl
    simp only [get_issue_id, hresp, hno, hf, except_map_err]

/-- A response without an `errors` key whose `issue` field is `null`. -/
def envNullIssue : Env :=
  fun _ => .ok (Json.obj [("data", Json.obj [("issue", Json.null)])])

theorem null_return_requires_errors_key_witness :
    (get_issue_id envNullIssue 0 "1M-999").1 = .error PyExn.typeError :=
  (null_return_requires_errors_key envNullIssue 0 "1M-999").2
    (Json.obj [("data", Json.obj [("issue", Json.null)])])
    (Json.obj [("issue", Json.null)]) rfl rfl rfl rfl

/-! ### Transition executor: API-reported failure and success paths -/

/-- When the state-mutation response is parsed and reports an `errors`
array, or parses with no `errors` key but a falsy
`data.issueUpdate.success`, the executor returns `False` after its
single mutation call: the comment mutation is never issued. -/
theorem update_issue_state_api_failure (env : Env) (n : Nat) (i stj : Json)
    (c : String) (data : Json) (hresp : env n = .ok data)
    (h : pyContains "errors" data = .ok true ∨
         (pyContains "errors" data = .ok false ∧
          ∃ v, step1Success data = .ok v ∧ v.truthy = false)) :
    update_issue_state env n i stj c =
      (.ok false, n + 1, [Call.updateMutation i stj]) := by
  unfold update_issue_state
  rcases h with herr | ⟨hno, v, hv, hvf⟩
  · simp [hresp, herr]
  · simp [hresp, hno, hv, hvf]

/-- When step 1 parses with a truthy success flag and its issue fields
are present, and the comment response parses with an accessible
`data.commentCreate.success` field (whatever its value), the executor
returns `True` after exactly the state mutation and the comment
mutation. -/
theorem update_issue_state_step1_comment (env : Env) (n : Nat) (i stj : Json)
    (c : String) (data cdata v w u : Json)
    (hresp : env n = .ok data) (hno : pyContains "errors" data = .ok false)
    (hv : step1Success data = .ok v) (hvt : v.truthy = true)
    (hw : step1Print data = .ok w)
    (hc : env (n + 1) = .ok cdata) (hu : commentSuccess cdata = .ok u) :
    update_issue_state env n i stj c =
      (.ok true, n + 2,
       [Call.updateMutation i stj, Call.commentMutation i c]) := by
  unfold update_issue_state
  simp [hresp, hno, hv, hvt, hw, hc, hu]

/-- Every invocation of the executor issues its state mutation exactly
once: no branch repeats or reverts it. -/
theorem update_issue_state_one_mutation (env : Env) (n : Nat) (i stj : Json)
    (c : String) :
    (update_issue_state env n i stj c).2.2.countP isUpdateCall = 1 := by
  unfold update_issue_state
  repeat' split
  all_goals rfl

/-- C4: if the state-mutation response contains an `errors` array or
reports a falsy `success`, the executor returns `False` and the comment
mutation is never attempted: the trace for the invocation is the single
state mutation, with no comment call. -/
theorem update_api_error_no_comment (env : Env) (n : Nat) (i stj : Json)
    (c : String) (data : Json) (hresp : env n = .ok data)
    (h : pyContains "errors" data = .ok true ∨
         (pyContains "errors" data = .ok false ∧
          ∃ v, step1Success data = .ok v ∧ v.truthy = false)) :
    (update_issue_state env n i stj c).1 = .ok false ∧
    (update_issue_state env n i stj c).2.2 = [Call.updateMutation i stj] ∧
    (update_issue_state env n i stj c).2.2.countP isCommentCall = 0 := by
  rw [update_issue_state_api_failure env n i stj c data hresp h]
  exact ⟨rfl, rfl, rfl⟩

/-- A state-mutation response reporting `success = false`. -/
def envUpdFalse : Env :=
  fun _ => .ok (Json.obj [("data", Json.obj
    [("issueUpdate", Json.obj [("success", Json.bool false)])])])

theorem update_api_error_no_comment_witness :
    (update_issue_state envUpdFalse 0 (Json.str "iid") (Json.str "sid")
        "note").1 = .ok false ∧
    (update_issue_state envUpdFalse 0 (Json.str "iid") (Json.str "sid")
        "note").2.2 = [Call.updateMutation (Json.str "iid") (Json.str "sid")] ∧
    (update_issue_state envUpdFalse 0 (Json.str "iid") (Json.str "sid")
        "note").2.2.countP isCommentCall = 0 :=
  update_api_error_no_comment envUpdFalse 0 (Json.str "iid") (Json.str "sid")
    "note"
    (Json.obj [("data", Json.obj
      [("issueUpdate", Json.obj [("success", Json.bool false)])])])
    rfl (Or.inr ⟨rfl, Json.bool false, rfl, rfl⟩)

/-- A successful state-mutation response with the issue fields read by
the success print. -/
def goodUpdateResp : Json :=
  Json.obj [("data", Json.obj [("issueUpdate", Json.obj
    [("success", Json.bool true),
     ("issue", Json.obj [("identifier", Json.str "1M-610"),
       ("state", Json.obj [("name", Json.str "Canceled")])])])])]

/-- Step 1 succeeds, then the comment POST raises a transport exception. -/
def envCommentCrash : Env :=
  fun n => if n = 0 then .ok goodUpdateResp else .error .transport

/-- Step 1 succeeds, then the comment mutation reports `success = false`. -/
def envCommentFalse : Env :=
  fun n => if n = 0 then .ok goodUpdateResp
    else .ok (Json.obj [("data", Json.obj
      [("commentCreate", Json.obj [("success", Json.bool false)])])])

/-- A state-mutation response reporting `success = true` but carrying
none of the issue fields read by the success print of lines 115-116. -/
def bareUpdateResp : Json :=
  Json.obj [("data", Json.obj
    [("issueUpdate", Json.obj [("success", Json.bool true)])])]

/-- Every response is the bare reported-successful mutation. -/
def envBareUpd : Env := fun _ => .ok bareUpdateResp

/-- C3 counterexample, at two explicit inputs.  First input: the state
mutation succeeds (truthy success flag), yet the executor does not
return `true` — the comment POST raises a transport exception which
propagates out of the executor, so the run aborts instead of recording
the ticket as a success.  Second input: the mutation response reports
`success = true` but lacks the issue fields read for the success print,
so line 115 raises `KeyError` after the reported-successful mutation
and before the comment call is ever reached — the trace is the single
state mutation — again the executor raises instead of returning
`true`. -/
theorem transition_verdict_counterexample :
    ((∃ v, step1Success goodUpdateResp = .ok v ∧ v.truthy = true) ∧
     envCommentCrash 0 = .ok goodUpdateResp ∧
     (update_issue_state envCommentCrash 0 (Json.str "iid") (Json.str "sid")
        "note").1 = .error PyExn.transport ∧
     (update_issue_state envCommentCrash 0 (Json.str "iid") (Json.str "sid")
        "note").1 ≠ .ok true) ∧
    ((∃ v, step1Success bareUpdateResp = .ok v ∧ v.truthy = true) ∧
     envBareUpd 0 = .ok bareUpdateResp ∧
     (update_issue_state envBareUpd 0 (Json.str "iid") (Json.str "sid")
        "note").1 = .error (PyExn.keyError "issue") ∧
     (update_issue_state envBareUpd 0 (Json.str "iid") (Json.str "sid")
        "note").2.2 = [Call.updateMutation (Json.str "iid") (Json.str "sid")] ∧
     (update_issue_state envBareUpd 0 (Json.str "iid") (Json.str "sid")
        "note").1 ≠ .ok true) :=
  ⟨⟨⟨Json.bool true, rfl, rfl⟩, rfl, rfl, fun h => Except.noConfusion h⟩,
   ⟨⟨Json.bool true, rfl, rfl⟩, rfl, rfl, rfl, fun h => Except.noConfusion h⟩⟩

/-- C3 amended: provided the success response carries the issue fields
read for the success print (`data.issueUpdate.issue.identifier` and
`data.issueUpdate.issue.state.name`) whenever it reports a truthy
success flag, and the comment call, when reached, yields a parsed
response whose `data.commentCreate.success` field is accessible, the
executor returns `true` exactly when the state mutation parsed without
errors and reported a truthy success flag — whatever the value of the
comment success flag — and it issues its state mutation exactly once
(step 1 is never reverted).  Outside that proviso the executor raises
instead of returning: a missing print field after a reported-successful
mutation, a comment transport failure, or a malformed comment response
propagates and aborts the run. -/
theorem transition_verdict_amended (env : Env) (n : Nat) (i stj : Json)
    (c : String) (data : Json)
    (hresp : env n = .ok data)
    (hno : pyContains "errors" data = .ok false)
    (hprint : ∀ v, step1Success data = .ok v → v.truthy = true →
        ∃ w, step1Print data = .ok w)
    (hcmt : ∃ cdata, env (n + 1) = .ok cdata ∧
        ∃ u, commentSuccess cdata = .ok u) :
    ((update_issue_state env n i stj c).1 = .ok true ↔
      ∃ v, step1Success data = .ok v ∧ v.truthy = true) ∧
    (update_issue_state env n i stj c).2.2.countP isUpdateCall = 1 := by
  obtain ⟨cdata, hc, u, hu⟩ := hcmt
  refine ⟨⟨fun h => ?_, fun hs => ?_⟩,
    update_issue_state_one_mutation env n i stj c⟩
  · cases hv : step1Success data with
    | error e =>
      unfold update_issue_state at h
      simp [hresp, hno, hv] at h
    | ok v =>
      cases hvt : v.truthy with
      | true => exact ⟨v, rfl, hvt⟩
      | false =>
        have := update_issue_state_api_failure env n i stj c data hresp
          (Or.inr ⟨hno, v, hv, hvt⟩)
        rw [this] at h
        exact absurd h (by simp)
  · obtain ⟨v, hv, hvt⟩ := hs
    obtain ⟨w, hw⟩ := hprint v hv hvt
    rw [update_issue_state_step1_comment env n i stj c data cdata v w u
      hresp hno hv hvt hw hc hu]

theorem transition_verdict_amended_witness :
    ((update_issue_state envCommentFalse 0 (Json.str "iid") (Json.str "sid")
        "note").1 = .ok true ↔
      ∃ v, step1Success goodUpdateResp = .ok v ∧ v.truthy = true) ∧
    (update_issue_state envCommentFalse 0 (Json.str "iid") (Json.str "sid")
        "note").2.2.countP isUpdateCall = 1 :=
  transition_verdict_amended envCommentFalse 0 (Json.str "iid")
    (Json.str "sid") "note" goodUpdateResp rfl rfl
    (fun _ _ _ => ⟨Json.str "Canceled", rfl⟩)
    ⟨Json.obj [("data", Json.obj
        [("commentCreate", Json.obj [("success", Json.bool false)])])],
      rfl, Json.bool false, rfl⟩

/-! ### Per-ticket error handling in the batch loop -/

/-- Every response is a raised transport exception. -/
def envTransport : Env := fun _ => .error .transport

/-- C2 counterexample: a transport exception during the
resolution of a ticket is not caught at the ticket-processing boundary: the
exception propagates out of the loop (no failure record is produced,
the counts are untouched) and the next ticket is never queried. -/
theorem ticket_error_caught_counterexample :
    run_phase envTransport (Json.str "sid") PHASE1_COMMENT 1 ⟨0, 0, []⟩
        ["1M-610", "1M-611"] =
      (.error PyExn.transport, 2, [Call.issueQuery "1M-610"]) := rfl

/-- C2 amended: an API-reported error — an `errors` array in the
resolution response, or an `errors` array or falsy `success` in the
state-mutation response — is converted into a failure record for the
ticket and the loop continues; transport exceptions are not caught and
abort the run. -/
theorem per_ticket_api_errors_amended (env : Env) (n : Nat) (stj : Json)
    (c : String) (s : Summary) (t : String)
    (h : (∃ data, env n = .ok data ∧ pyContains "errors" data = .ok true) ∨
         (∃ j, (get_issue_id env n t).1 = .ok (some j) ∧ j.truthy = true ∧
           ∃ data2, env (n + 1) = .ok data2 ∧
             (pyContains "errors" data2 = .ok true ∨
              (pyContains "errors" data2 = .ok false ∧
               ∃ v, step1Success data2 = .ok v ∧ v.truthy = false)))) :
    (process_ticket env n stj c s t).1 =
      .ok ⟨s.success_count, s.failed_count + 1, s.failed_tickets ++ [t]⟩ := by
  rcases h with ⟨data, hresp, herr⟩ | ⟨j, hj, hjt, data2, hresp2, hcase⟩
  · rw [process_ticket_resolver_none env n stj c s t
      (get_issue_id_api_error env n t data hresp herr)]
  · have hsh : get_issue_id env n t = (.ok (some j), n + 1, [Call.issueQuery t]) := by
      have h0 : get_issue_id env n t =
          ((get_issue_id env n t).1, n + 1, [Call.issueQuery t]) := rfl
      rw [h0, hj]
    have hupd := update_issue_state_api_failure env (n + 1) j stj c data2
      hresp2 hcase
    unfold process_ticket
    rw [hsh]
    simp [hjt, hupd]

theorem per_ticket_api_errors_witness :
    (process_ticket envApiErr 0 (Json.str "sid") PHASE1_COMMENT
        ⟨0, 0, []⟩ "1M-610").1 = .ok ⟨0, 1, ["1M-610"]⟩ :=
  per_ticket_api_errors_amended envApiErr 0 (Json.str "sid") PHASE1_COMMENT
    ⟨0, 0, []⟩ "1M-610"
    (Or.inl ⟨Json.obj [("errors", Json.arr [])], rfl, rfl⟩)

/-! ### State resolution: client-side post-filter and fatal setup errors -/

/-- A scan result `ok idv` comes from some node of the list whose
`team.key` equals `"1M"` and whose `id` is `idv`. -/
theorem findCanceled_ok (xs : List Json) (idv : Json)
    (h : findCanceled xs = .ok idv) :
    ∃ st ∈ xs, (∃ k, teamKey st = .ok k ∧ k.eqStr "1M" = true) ∧
      st.index "id" = .ok idv := by
  induction xs with
  | nil => simp [findCanceled] at h
  | cons st rest ih =>
    unfold findCanceled at h
    cases hk : teamKey st with
    | error e => rw [hk, except_bind_err] at h; simp at h
    | ok k =>
      rw [hk, except_bind_ok] at h
      cases hq : k.eqStr "1M" with
      | true =>
        rw [hq] at h
        simp at h
        exact ⟨st, List.mem_cons_self st rest, ⟨k, hk, hq⟩, h⟩
      | false =>
        rw [hq] at h
        simp at h
        obtain ⟨st2, hmem, hk2, hid⟩ := ih h
        exact ⟨st2, List.mem_cons_of_mem st hmem, hk2, hid⟩

/-- When the `team.key` of every node resolves and differs from `"1M"`, the
scan raises the not-found exception. -/
theorem findCanceled_notFound (xs : List Json)
    (h : ∀ st ∈ xs, ∃ k, teamKey st = .ok k ∧ k.eqStr "1M" = false) :
    findCanceled xs = .error (.exn "Could not find Canceled state for team 1M") := by
  induction xs with
  | nil => rfl
  | cons st rest ih =>
    obtain ⟨k, hk, hf⟩ := h st (List.mem_cons_self st rest)
    unfold findCanceled
    rw [hk, except_bind_ok, hf]
    simp
    exact ih (fun st2 hm => h st2 (List.mem_cons_of_mem st hm))

/-- The scan returns the `id` of the first node in list order whose
`team.key` equals `"1M"`. -/
theorem findCanceled_append (pre : List Json) (st : Json) (post : List Json)
    (hpre : ∀ p ∈ pre, ∃ k, teamKey p = .ok k ∧ k.eqStr "1M" = false)
    (hst : ∃ k, teamKey st = .ok k ∧ k.eqStr "1M" = true) :
    findCanceled (pre ++ st :: post) = st.index "id" := by
  revert hpre
  induction pre with
  | nil =>
    intro _
    obtain ⟨k, hk, ht⟩ := hst
    show findCanceled (st :: post) = st.index "id"
    unfold findCanceled
    rw [hk, except_bind_ok, ht]
    simp
  | cons p ps ih =>
    intro hpre
    obtain ⟨k, hk, hf⟩ := hpre p (List.mem_cons_self p ps)
    show findCanceled (p :: (ps ++ st :: post)) = st.index "id"
    unfold findCanceled
    rw [hk, except_bind_ok, hf]
    simp
    exact ih (fun q hq => hpre q (List.mem_cons_of_mem p hq))

/-- With a parsed response whose node list extracts, the state lookup
reduces to the client-side scan of the nodes. -/
theorem get_canceled_state_id_nodes (env : Env) (n : Nat) (data : Json)
    (nodes : List Json) (hresp : env n = .ok data)
    (hnodes : nodesOf data = .ok (Json.arr nodes)) :
    (get_canceled_state_id env n).1 = findCanceled nodes := by
  simp only [get_canceled_state_id, hresp, hnodes, except_bind_ok]
  rfl

/-- C8: the state lookup queries the workflow states by name across
teams and post-filters client-side: any identifier it returns is the
`id` of a node whose `team.key` equals the configured `"1M"`, and when
no node of the response belongs to that team it fails with the
not-found exception. -/
theorem state_post_filter (env : Env) (n : Nat) (data : Json)
    (nodes : List Json) (hresp : env n = .ok data)
    (hnodes : nodesOf data = .ok (Json.arr nodes)) :
    (∀ idv, (get_canceled_state_id env n).1 = .ok idv →
      ∃ st ∈ nodes, (∃ k, teamKey st = .ok k ∧ k.eqStr "1M" = true) ∧
        st.index "id" = .ok idv) ∧
    ((∀ st ∈ nodes, ∃ k, teamKey st = .ok k ∧ k.eqStr "1M" = false) →
      (get_canceled_state_id env n).1 =
        .error (.exn "Could not find Canceled state for team 1M")) := by
  have hred := get_canceled_state_id_nodes env n data nodes hresp hnodes
  constructor
  · intro idv h
    rw [hred] at h
    exact findCanceled_ok nodes idv h
  · intro hall
    rw [hred]
    exact findCanceled_notFound nodes hall

/-- A workflow-state node named Canceled but belonging to team ZZ. -/
def nodeZZ : Json :=
  Json.obj [("id", Json.str "state-zz"), ("name", Json.str "Canceled"),
    ("team", Json.obj [("key", Json.str "ZZ")])]

/-- A state-query response whose only node belongs to another team. -/
def respNoTeam : Json :=
  Json.obj [("data", Json.obj [("workflowStates", Json.obj
    [("nodes", Json.arr [nodeZZ])])])]

def envNoTeam : Env := fun _ => .ok respNoTeam

theorem state_post_filter_witness :
    (get_canceled_state_id envNoTeam 0).1 =
      .error (.exn "Could not find Canceled state for team 1M") :=
  (state_post_filter envNoTeam 0 respNoTeam [nodeZZ] rfl rfl).2
    (by
      intro st hst
      rw [List.mem_singleton] at hst
      subst hst
      exact ⟨Json.str "ZZ", rfl, rfl⟩)

/-- C7: if the target workflow state cannot be resolved, the run aborts
with that exception after the single state query: no per-ticket call is
made (no resolution query, no mutation), and no success or failure is
ever recorded. -/
theorem init_failure_aborts (env : Env) (e : PyExn)
    (h : (get_canceled_state_id env 0).1 = .error e) :
    main env = (.error e, 1, [Call.stateQuery]) ∧
    issueQueriesOf (main env).2.2 = [] ∧
    (main env).2.2.countP isUpdateCall = 0 := by
  have hsh : get_canceled_state_id env 0 = (.error e, 1, [Call.stateQuery]) := by
    have h0 : get_canceled_state_id env 0 =
        ((get_canceled_state_id env 0).1, 1, [Call.stateQuery]) := rfl
    rw [h0, h]
  have hm : main env = (.error e, 1, [Call.stateQuery]) := by
    unfold main
    rw [hsh]
  rw [hm]
  exact ⟨rfl, rfl, rfl⟩

theorem init_failure_aborts_witness :
    main envNoTeam =
      (.error (PyExn.exn "Could not find Canceled state for team 1M"), 1,
       [Call.stateQuery]) ∧
    issueQueriesOf (main envNoTeam).2.2 = [] ∧
    (main envNoTeam).2.2.countP isUpdateCall = 0 :=
  init_failure_aborts envNoTeam
    (PyExn.exn "Could not find Canceled state for team 1M") (by rfl)

/-- C10: when several returned nodes match the state name and belong to
the configured team, the lookup returns the identifier of the first
such node in the node order of the response. -/
theorem first_matching_state_wins (env : Env) (n : Nat) (data : Json)
    (pre : List Json) (st : Json) (post : List Json)
    (hresp : env n = .ok data)
    (hnodes : nodesOf data = .ok (Json.arr (pre ++ st :: post)))
    (hpre : ∀ p ∈ pre, ∃ k, teamKey p = .ok k ∧ k.eqStr "1M" = false)
    (hst : ∃ k, teamKey st = .ok k ∧ k.eqStr "1M" = true) :
    (get_canceled_state_id env n).1 = st.index "id" := by
  rw [get_canceled_state_id_nodes env n data (pre ++ st :: post) hresp hnodes]
  exact findCanceled_append pre st post hpre hst

/-- First of two nodes both matching name and team. -/
def node1Ma : Json :=
  Json.obj [("id", Json.str "state-a"), ("name", Json.str "Canceled"),
    ("team", Json.obj [("key", Json.str "1M")])]

/-- Second of two nodes both matching name and team. -/
def node1Mb : Json :=
  Json.obj [("id", Json.str "state-b"), ("name", Json.str "Canceled"),
    ("team", Json.obj [("key", Json.str "1M")])]

/-- A state-query response with two nodes for team 1M. -/
def respTwoMatch : Json :=
  Json.obj [("data", Json.obj [("workflowStates", Json.obj
    [("nodes", Json.arr [node1Ma, node1Mb])])])]

def envTwoMatch : Env := fun _ => .ok respTwoMatch

theorem first_matching_state_wins_witness :
    (get_canceled_state_id envTwoMatch 0).1 = .ok (Json.str "state-a") :=
  first_matching_state_wins envTwoMatch 0 respTwoMatch [] node1Ma [node1Mb]
    rfl rfl (fun p hp => absurd hp (List.not_mem_nil p))
    ⟨Json.str "1M", rfl, rfl⟩

/-! ### Batch accounting: every ticket counted exactly once -/

theorem issueQueriesOf_append (a b : List Call) :
    issueQueriesOf (a ++ b) = issueQueriesOf a ++ issueQueriesOf b :=
  List.filterMap_append a b _

/-- The executor issues no issue-resolution query. -/
theorem update_calls_no_issue (env : Env) (n : Nat) (i stj : Json)
    (c : String) :
    issueQueriesOf (update_issue_state env n i stj c).2.2 = [] := by
  unfold update_issue_state
  repeat' split
  all_goals rfl

/-- A ticket iteration that returns normally counts the ticket exactly
once — the success and failure counts together grow by one — and issues
exactly one resolution query, for that ticket. -/
theorem process_ticket_ok (env : Env) (n : Nat) (stj : Json) (c : String)
    (s : Summary) (t : String) (s2 : Summary)
    (h : (process_ticket env n stj c s t).1 = .ok s2) :
    s2.success_count + s2.failed_count
        = s.success_count + s.failed_count + 1 ∧
    issueQueriesOf (process_ticket env n stj c s t).2.2 = [t] := by
  rcases hg : get_issue_id env n t with ⟨r1, rest1⟩
  rcases rest1 with ⟨n2, cs⟩
  have hx := get_issue_id_shape env n t
  rw [hg] at hx
  have hcs : cs = [Call.issueQuery t] := congrArg Prod.snd hx
  unfold process_ticket at h ⊢
  rw [hg] at h ⊢
  cases r1 with
  | error e => simp at h
  | ok issue_id =>
    cases issue_id with
    | none =>
      simp at h ⊢
      refine ⟨?_, by rw [hcs]; rfl⟩
      rw [← h]
      dsimp only
      omega
    | some j =>
      cases hj : j.truthy with
      | false =>
        simp [hj] at h ⊢
        refine ⟨?_, by rw [hcs]; rfl⟩
        rw [← h]
        dsimp only
        omega
      | true =>
        rcases hu : update_issue_state env n2 j stj c with ⟨r2, rest2⟩
        rcases rest2 with ⟨n3, cs2⟩
        have hnoq : issueQueriesOf cs2 = [] := by
          have hy := update_calls_no_issue env n2 j stj c
          rw [hu] at hy
          exact hy
        simp [hj] at h ⊢
        rw [hu] at h ⊢
        cases r2 with
        | error e => simp at h
        | ok b =>
          cases b with
          | true =>
            simp at h ⊢
            refine ⟨?_, by rw [issueQueriesOf_append, hcs, hnoq]; simp [issueQueriesOf]⟩
            rw [← h]
            dsimp only
            omega
          | false =>
            simp at h ⊢
            refine ⟨?_, by rw [issueQueriesOf_append, hcs, hnoq]; simp [issueQueriesOf]⟩
            rw [← h]
            dsimp only
            omega

/-- A phase that returns normally counts each of its tickets exactly
once and issues exactly one resolution query per ticket, in list
order. -/
theorem run_phase_ok (env : Env) (stj : Json) (c : String) :
    ∀ (ts : List String) (n : Nat) (s s2 : Summary),
      (run_phase env stj c n s ts).1 = .ok s2 →
      s2.success_count + s2.failed_count
          = s.success_count + s.failed_count + ts.length ∧
      issueQueriesOf (run_phase env stj c n s ts).2.2 = ts := by
  intro ts
  induction ts with
  | nil =>
    intro n s s2 h
    have hs : s = s2 := by simpa [run_phase] using h
    subst hs
    exact ⟨rfl, rfl⟩
  | cons t rest ih =>
    intro n s s2 h
    simp only [run_phase] at h ⊢
    cases hp : (process_ticket env n stj c s t).1 with
    | error e => simp only [hp] at h; simp at h
    | ok s1 =>
      simp only [hp] at h ⊢
      obtain ⟨hc1, hc2⟩ := process_ticket_ok env n stj c s t s1 hp
      obtain ⟨hi1, hi2⟩ :=
        ih (process_ticket env n stj c s t).2.1 s1 s2 h
      constructor
      · simp only [List.length_cons]
        omega
      · rw [issueQueriesOf_append, hc2, hi2]
        simp

/-- C1: in every run of the batch that returns normally, each ticket of
the configured phase lists is counted exactly once as a success or a
failure — the final success count plus failure count equals the number
of configured tickets — and no ticket is retried within the run: the
resolution queries issued are exactly the configured list, each ticket
once, in order. -/
theorem batch_counts (env : Env) (s : Summary)
    (h : (main env).1 = .ok s) :
    s.success_count + s.failed_count
        = (WORKER_TRACE_TICKETS ++ TRACK_TICKETS).length ∧
    issueQueriesOf (main env).2.2 = WORKER_TRACE_TICKETS ++ TRACK_TICKETS := by
  simp only [main] at h ⊢
  cases h0 : (get_canceled_state_id env 0).1 with
  | error e => simp only [h0] at h; simp at h
  | ok stid =>
    simp only [h0] at h ⊢
    cases h1 : (run_phase env stid PHASE1_COMMENT
        (get_canceled_state_id env 0).2.1 ⟨0, 0, []⟩ WORKER_TRACE_TICKETS).1 with
    | error e => simp only [h1] at h; simp at h
    | ok s1 =>
      simp only [h1] at h ⊢
      obtain ⟨ha1, ha2⟩ := run_phase_ok env stid PHASE1_COMMENT
        WORKER_TRACE_TICKETS (get_canceled_state_id env 0).2.1 ⟨0, 0, []⟩ s1 h1
      obtain ⟨hb1, hb2⟩ := run_phase_ok env stid PHASE2_COMMENT
        TRACK_TICKETS _ s1 s h
      have ha1' : s1.success_count + s1.failed_count = 14 := by
        simpa [WORKER_TRACE_TICKETS] using ha1
      have hb1' : s.success_count + s.failed_count
          = s1.success_count + s1.failed_count + 6 := by
        simpa [TRACK_TICKETS] using hb1
      constructor
      · have hlen : (WORKER_TRACE_TICKETS ++ TRACK_TICKETS).length = 20 := rfl
        rw [hlen]
        omega
      · have hg : issueQueriesOf (get_canceled_state_id env 0).2.2 = [] := rfl
        rw [issueQueriesOf_append, issueQueriesOf_append, hg, ha2, hb2]
        simp

/-- A successful issue-resolution response with the fields the script
reads. -/
def goodIssueResp : Json :=
  Json.obj [("data", Json.obj [("issue", Json.obj
    [("id", Json.str "issue-uuid"), ("identifier", Json.str "1M-000"),
     ("title", Json.str "a test ticket"),
     ("state", Json.obj [("name", Json.str "Todo")])])])]

/-- A successful comment-creation response. -/
def goodCommentResp : Json :=
  Json.obj [("data", Json.obj
    [("commentCreate", Json.obj [("success", Json.bool true)])])]

/-- An environment in which the state query and then every per-ticket
triple of calls (resolve, update, comment) succeed. -/
def envAll : Env := fun n =>
  if n = 0 then .ok respTwoMatch
  else
    match (n - 1) % 3 with
    | 0 => .ok goodIssueResp
    | 1 => .ok goodUpdateResp
    | _ => .ok goodCommentResp

theorem batch_counts_witness :
    (Summary.mk 20 0 []).success_count + (Summary.mk 20 0 []).failed_count
        = (WORKER_TRACE_TICKETS ++ TRACK_TICKETS).length ∧
    issueQueriesOf (main envAll).2.2 = WORKER_TRACE_TICKETS ++ TRACK_TICKETS :=
  batch_counts envAll ⟨20, 0, []⟩ (by rfl)

end LinearCleanup
